import Mathlib

/-!
Verification of the RIFT-CI-CD repair-orchestration engine.

The definitions below are a shallow embedding of the Python sources:
`backend/langgraph_flow.py` (the orchestrator state machine),
`backend/agents/docker_runner.py` (image building),
`backend/docker_manager.py` (sandbox result extraction), and
`backend/scripts/universal_runner.py` (the in-sandbox test runner).
External calls (git, LLM, container runtime, filesystem probes) are
modelled by explicit outcome parameters; everything else is transcribed
from the source text.
-/

/-- Boolean prefix test on character lists (needle against haystack). -/
def listIsPre : List Char → List Char → Bool
  | [], _ => true
  | _ :: _, [] => false
  | a :: as, b :: bs => a = b && listIsPre as bs

/-- Boolean test: does the needle occur contiguously anywhere in the haystack? -/
def listHasSub (needle : List Char) : List Char → Bool
  | [] => listIsPre needle []
  | c :: cs => listIsPre needle (c :: cs) || listHasSub needle cs

/-- Substring containment on strings; models the Python `needle in hay` test. -/
def strContains (hay needle : String) : Bool :=
  listHasSub needle.data hay.data

/-- Uppercasing of a string; models Python `str.upper()` on ASCII data. -/
def strUpper (s : String) : String :=
  String.mk (s.data.map Char.toUpper)

/-- Lowercasing of a string; models Python `str.lower()` on ASCII data. -/
def strLower (s : String) : String :=
  String.mk (s.data.map Char.toLower)

/-!
Lexical facts about `backend/agents/docker_runner.py` (claim C1).

`tqCounts` records, for each of the 146 physical lines of the file, how
many occurrences of the triple-double-quote delimiter that line contains.
The file contains exactly five such delimiters, on lines 31, 34, 35, 83
and 86, and contains no triple-single-quote delimiter anywhere; all other
lines contain none.  Python pairs these delimiters in order, so a line k
lies inside a triple-quoted string exactly when the number of delimiters
on lines 1..k is odd at that point.
-/

/-- Per-line counts of the triple-double-quote delimiter in
`backend/agents/docker_runner.py` (146 lines; delimiters on lines
31, 34, 35, 83 and 86 only). -/
def tqCounts : List Nat :=
  List.replicate 30 0 ++ [1] ++ List.replicate 2 0 ++ [1, 1] ++
  List.replicate 47 0 ++ [1] ++ List.replicate 2 0 ++ [1] ++
  List.replicate 60 0

/-- Number of triple-double-quote delimiters on lines 1..k of
`backend/agents/docker_runner.py`. -/
def tqPre (k : Nat) : Nat :=
  (tqCounts.take k).sum

/-- Result dictionary shape returned by image builds: a `status` field and a
`logs` field, as in `docker_runner.py` and consumed by `validate_docker_node`. -/
structure BuildResult where
  status : String
  logs : String
deriving DecidableEq

/-- The function `DockerTestRunner.build_image` as Python actually parses it:
after its docstring (lines 31-34), line 35 opens a second string literal that
is not closed until line 83, so the entire intended body (lines 36-82,
including every `return` statement) is string content.  The executable body
is two expression statements and the function falls off the end, returning
Python `None` — modelled as `none`. -/
def build_image (_tag : String) : Option BuildResult :=
  none

/-- The statements written (as text) inside the string literal spanning lines
35-83 of `docker_runner.py`, i.e. the intended body of `build_image`:
with no client (runtime unreachable) it returns status `error` with logs
`Docker unavailable on this system.`; a successful build returns status
`success` with logs `Image built successfully`; a `BuildError` returns the
captured build log; any other exception returns the prefixed message. -/
inductive DockerBuildOutcome
  | built
  | buildError (logs : String)
  | otherError (msg : String)
deriving DecidableEq

/-- Intended `build_image` body, transcribed from the string content at
lines 36-79 of `docker_runner.py` (see `build_image` for why this text is
not executable). -/
def build_image_text (clientAvailable : Bool) (outcome : DockerBuildOutcome) :
    BuildResult :=
  if !clientAvailable then
    { status := "error", logs := "Docker unavailable on this system." }
  else
    match outcome with
    | .built => { status := "success", logs := "Image built successfully" }
    | .buildError logs => { status := "error", logs := logs }
    | .otherError msg =>
        { status := "error", logs := "Unexpected build error: " ++ msg }

/-!
Data model of the orchestrator state (`AgentState` in `langgraph_flow.py`).
Fields not read by any node body or router relevant to the claims
(`repo_url`, `token`, `auth_mode`, `private_key`, `workspace`) are omitted;
all control-relevant fields are kept.  `repo_path` is an `Option` because a
failed clone never sets it (`clone_node`, lines 61-66).
-/

/-- A structured error record as produced by the runner / analyzer and stored
in `state["current_error"]` (fields `file`, `line`, `type`, `description`,
`raw_logs`). -/
structure ErrRec where
  file : Option String
  line : Nat
  typ : String
  description : String
  raw_logs : String
deriving DecidableEq

/-- A fix record as appended by `fix_node` (lines 368-375 of
`langgraph_flow.py`). -/
structure FixRecord where
  file : String
  bug_type : String
  line_number : Nat
  commit_message : String
  status : String
deriving DecidableEq

/-- The orchestrator session state (the `AgentState` TypedDict of
`langgraph_flow.py`, control-relevant fields). -/
structure AgentState where
  team_name : String
  repo_path : Option String
  branch_name : String
  iteration : Nat
  max_iterations : Nat
  test_status : String
  logs : List String
  fixes_applied : List FixRecord
  current_error : Option ErrRec
  language_detected : String
  docker_exists : Bool
  docker_retry_count : Nat
  docker_build_logs : String
  docker_image_tag : String
deriving DecidableEq

/-- Nodes of the LangGraph workflow (graph construction, lines 486-542 of
`langgraph_flow.py`), plus the two sink situations: `done` for `END`, and
`crashed` for an uncaught exception escaping a node body. -/
inductive Node
  | clone
  | analyze_project
  | check_dockerfile
  | generate_dockerfile
  | validate_docker
  | fix_dockerfile
  | test
  | analyze
  | fix
  | commit
  | create_pr
  | done
  | crashed
deriving DecidableEq

/-- Result of `bug_analyzer.analyze_logs` (or of the missing-script shortcut):
a dictionary with `file`, `line`, `type` and `description` keys. -/
structure AnalysisRec where
  file : Option String
  line : Nat
  typ : String
  description : String
deriving DecidableEq

/-- Result dictionary of `test_runner.run_tests` as consumed by `test_node`:
a `status`, an optional `language`, a list of error candidates and the raw
logs. -/
structure TestResult where
  status : String
  language : Option String
  errors : List ErrRec
  raw_logs : String
deriving DecidableEq

/-- Outcomes of all external calls a single node execution can make
(git clone, filesystem probes, image build, test run, LLM analysis and fix
generation, git commit).  The driver consumes one `Outcome` per step. -/
structure Outcome where
  clone_ok : Bool
  clone_repo_path : String
  clone_branch : String
  dockerfile_exists : Bool
  build : BuildResult
  test : TestResult
  analysis : AnalysisRec
  guess_file : Option String
  fix_file_exists : Bool
  fix_changed : Bool
  fix_desc : String
  has_token : Bool
  commit_ok : Bool

/-- Python truthiness of the `file` entry of an error/analysis dictionary:
present and a non-empty string. -/
def truthyFile : Option String → Bool
  | none => false
  | some f => f ≠ ""

/-!
Node bodies, transcribed statement by statement from `langgraph_flow.py`.
Log lines are kept as stable identifying strings (their exact punctuation
is not control-relevant; no router inspects `logs`).
-/

/-- Body of `clone_node` (lines 47-77): on a failed clone it records the
failure, sets `test_status` to `ERROR` and returns without writing
`repo_path`; on success it stores the repository path and branch and
initializes the Docker bookkeeping fields. -/
def clone_node (o : Outcome) (s : AgentState) : AgentState :=
  let s := { s with logs := s.logs ++ ["--- Cloning Repository ---"] }
  if !o.clone_ok then
    { s with logs := s.logs ++ ["Clone Failed"], test_status := "ERROR" }
  else
    { s with
      repo_path := some o.clone_repo_path
      branch_name := o.clone_branch
      logs := s.logs ++ ["Cloned repository", "Created branch"]
      docker_retry_count := 0
      docker_build_logs := ""
      docker_image_tag := "rift-sandbox:latest" }

/-- Body of `analyze_project_node` (lines 81-140).  Its second statement is
`repo_path = state["repo_path"]`, an unguarded dictionary access: when the
clone never produced a repository path the access raises `KeyError`, which
no surrounding code catches — modelled as `Except.error`.  On the normal
path the node only writes `explain.txt` and appends log lines. -/
def analyze_project_node (s : AgentState) : Except String AgentState :=
  match s.repo_path with
  | none => .error "KeyError: repo_path"
  | some _ =>
      .ok { s with logs := s.logs ++ ["--- Analyzing Project Structure ---",
                                      "Project analysis saved to explain.txt"] }

/-- Body of `check_dockerfile_node` (lines 142-152): an existence probe for
`Dockerfile` at the workspace root, returned as the `docker_exists` update. -/
def check_dockerfile_node (o : Outcome) (s : AgentState) : AgentState :=
  { s with
    logs := s.logs ++ ["--- Checking for Dockerfile ---"]
    docker_exists := o.dockerfile_exists }

/-- Body of `generate_dockerfile_node` (lines 154-191): writes the generated
build file and returns `docker_exists := true`. -/
def generate_dockerfile_node (s : AgentState) : AgentState :=
  { s with
    logs := s.logs ++ ["--- Generating Dockerfile ---", "Dockerfile generated."]
    docker_exists := true }

/-- Body of `validate_docker_node` (lines 193-213).  The result dictionary of
`runner.build_image(tag)` is supplied as the `build` outcome parameter, with
the field shapes the source destructures (claim C1 records that the real
`build_image` cannot in fact produce such a dictionary).  On status
`success` the node stores the literal `Image built successfully` in
`docker_build_logs` and the image tag; otherwise it stores the failure logs
and re-stores the unchanged retry count. -/
def validate_docker_node (o : Outcome) (s : AgentState) : AgentState :=
  let retry := s.docker_retry_count
  let s := { s with logs := s.logs ++ ["--- Validating Dockerfile ---"] }
  let tag := strLower ("test-build-" ++ s.team_name ++ ":latest")
  if o.build.status = "success" then
    { s with
      logs := s.logs ++ ["Dockerfile validation SUCCESS"]
      docker_build_logs := "Image built successfully"
      docker_image_tag := tag }
  else
    { s with
      logs := s.logs ++ ["Dockerfile validation FAILED"]
      docker_build_logs := o.build.logs
      docker_retry_count := retry }

/-- Body of `fix_dockerfile_node` (lines 215-234): rewrites the build file via
the generative service and increments `docker_retry_count` by one. -/
def fix_dockerfile_node (s : AgentState) : AgentState :=
  { s with
    logs := s.logs ++ ["--- Fixing Dockerfile ---", "Dockerfile updated by AI."]
    docker_retry_count := s.docker_retry_count + 1 }

/-- Body of `test_node` (lines 238-282): records the detected language, maps
the runner status (`SUCCESS` to `PASSED`, `FAILED` to `FAILED`, anything else
to `ERROR`), and on a non-passing result stores the first error candidate
(or a bare record) together with the raw logs in `current_error`. -/
def test_node (o : Outcome) (s : AgentState) : AgentState :=
  let s := { s with logs := s.logs ++ ["Running Universal Tests"] }
  let s :=
    match o.test.language with
    | some l => { s with language_detected := l, logs := s.logs ++ ["Language Detected"] }
    | none => s
  let raw := strUpper o.test.status
  let ts := if raw = "SUCCESS" then "PASSED"
            else if raw = "FAILED" then "FAILED"
            else "ERROR"
  let s := { s with test_status := ts, logs := s.logs ++ ["Test Result"] }
  if ts = "FAILED" || ts = "ERROR" then
    match o.test.errors with
    | e :: _ => { s with current_error := some { e with raw_logs := o.test.raw_logs } }
    | [] =>
        let bare : ErrRec := { file := none, line := 0, typ := "UNKNOWN",
                               description := "", raw_logs := o.test.raw_logs }
        { s with current_error := some bare }
  else s

/-- Dictionary-update semantics of `state["current_error"].update(analysis)`:
the four analysis keys replace the current ones, `raw_logs` is kept. -/
def updateErr (e : ErrRec) (a : AnalysisRec) : ErrRec :=
  { file := a.file, line := a.line, typ := a.typ,
    description := a.description, raw_logs := e.raw_logs }

/-- Body of `analyze_node` (lines 284-335).  Fast path: a current error that
already carries a non-UNKNOWN type, a truthy file and a truthy (non-zero)
line is accepted as-is.  Next, the literal missing-test-script check
synthesizes a CONFIG error on `package.json`.  Otherwise the generative
analysis result is taken, and if its file is missing/`unknown`/empty, the
entry-point guess (existence-checked, supplied as `guess_file`) is
substituted with line 1 and an annotated description. -/
def analyze_node (o : Outcome) (s : AgentState) : AgentState :=
  let err := s.current_error.getD
    { file := none, line := 0, typ := "UNKNOWN", description := "", raw_logs := "" }
  if err.typ ≠ "UNKNOWN" && truthyFile err.file && err.line ≠ 0 then
    { s with logs := s.logs ++ ["Regex Detected error"] }
  else
    let s := { s with logs := s.logs ++ ["Analyzing failure logs with LLM..."] }
    if strContains err.raw_logs "Missing script: \"test\"" ||
        strContains err.raw_logs "no test specified" then
      let analysis : AnalysisRec :=
        { file := some "package.json", line := 0, typ := "CONFIG",
          description := "The test script is missing or invalid in package.json." }
      { s with
        logs := s.logs ++ ["Detected missing test script. Targeting package.json."]
        current_error := some (updateErr err analysis) }
    else
      let analysis := o.analysis
      let analysis :=
        if !truthyFile analysis.file || analysis.file = some "unknown" then
          match o.guess_file with
          | some g =>
              { analysis with
                file := some g
                line := 1
                description := analysis.description ++
                  " (Auto-detected entry point due to missing file info in logs)" }
          | none => analysis
        else analysis
      { s with
        logs := s.logs ++ ["LLM Detected error"]
        current_error := some (updateErr err analysis) }

/-- Body of `fix_node` (lines 337-378).  If no file was identified, or the
identified file does not exist in the workspace, the node logs, advances the
iteration counter and returns.  Otherwise fix generation runs: identical
content logs `no fix`; changed content is written and a `FixRecord` with
status `Applied` is appended.  Neither of the latter two paths touches the
iteration counter (the commit step advances it). -/
def fix_node (o : Outcome) (s : AgentState) : AgentState :=
  let err := s.current_error.getD
    { file := none, line := 0, typ := "UNKNOWN", description := "", raw_logs := "" }
  if !truthyFile err.file then
    { s with
      logs := s.logs ++ ["Could not identify file to fix."]
      iteration := s.iteration + 1 }
  else if !o.fix_file_exists then
    { s with
      logs := s.logs ++ ["File not found in workspace."]
      iteration := s.iteration + 1 }
  else if !o.fix_changed then
    { s with logs := s.logs ++ ["LLM could not generate a fix."] }
  else
    let file_rel := (err.file).getD ""
    let err_type := if err.typ = "" then "General" else err.typ
    let commit_msg :=
      err_type ++ " error in " ++ file_rel ++ " line " ++
      toString err.line ++ " -> Fix: " ++ o.fix_desc
    let rec_ : FixRecord :=
      { file := file_rel, bug_type := err_type, line_number := err.line,
        commit_message := commit_msg, status := "Applied" }
    { s with
      fixes_applied := s.fixes_applied ++ [rec_]
      logs := s.logs ++ ["Applied fix locally"] }

/-- Replaces the status of the last fix record (Python mutates
`state["fixes_applied"][-1]` in place). -/
def setLastStatus (fixes : List FixRecord) (st : String) : List FixRecord :=
  match fixes.getLast? with
  | none => fixes
  | some last => fixes.dropLast ++ [{ last with status := st }]

/-- Body of `commit_node` (lines 380-422), returning the updated state paired
with whether any version-control command was invoked.  With no fix records,
or a last record whose status is not `Applied`, the node only advances the
iteration counter and makes no git call.  With a token, `git add`/`git
commit` run: on success the last record's status becomes `Fixed Locally`, on
a `CalledProcessError` it becomes `Failed Commit`.  Without a token no git
call is made and the status becomes `Fixed Locally`.  Every path ends with
`iteration += 1`. -/
def commit_node (o : Outcome) (s : AgentState) : AgentState × Bool :=
  let s := { s with logs := s.logs ++ ["--- Committing and Pushing Fixes ---"] }
  match s.fixes_applied.getLast? with
  | none => ({ s with iteration := s.iteration + 1 }, false)
  | some last =>
    if last.status ≠ "Applied" then
      ({ s with
         logs := s.logs ++ ["Skipping commit: No fix was applied in the previous step."]
         iteration := s.iteration + 1 }, false)
    else if o.has_token then
      if o.commit_ok then
        ({ s with
           fixes_applied := setLastStatus s.fixes_applied "Fixed Locally"
           logs := s.logs ++ ["Committed changes locally."]
           iteration := s.iteration + 1 }, true)
      else
        ({ s with
           fixes_applied := setLastStatus s.fixes_applied "Failed Commit"
           logs := s.logs ++ ["Git commit failed"]
           iteration := s.iteration + 1 }, true)
    else
      ({ s with
         fixes_applied := setLastStatus s.fixes_applied "Fixed Locally"
         logs := s.logs ++ ["Commit applied locally. No GITHUB_TOKEN provided."]
         iteration := s.iteration + 1 }, false)

/-- Body of `pr_node` (lines 424-456): pushes and opens the pull request;
only `logs` changes on the session state. -/
def pr_node (s : AgentState) : AgentState :=
  { s with logs := s.logs ++ ["Pushing changes and Creating Pull Request..."] }

/-!
Routers (lines 460-484) and the graph wiring (lines 486-542).
-/

/-- Router `route_dockerfile` (lines 460-464). -/
def route_dockerfile (s : AgentState) : Node :=
  if s.docker_exists then .validate_docker else .generate_dockerfile

/-- Router `route_after_validation` (lines 466-478): the literal
`Image built successfully` contained in `docker_build_logs` routes to
`test`; an exhausted retry budget (count at least 3) forces
`test_status := "ERROR"` and routes to `create_pr`; otherwise
`fix_dockerfile`.  The in-place state assignment of the source is returned
alongside the chosen node. -/
def route_after_validation (s : AgentState) : Node × AgentState :=
  if strContains s.docker_build_logs "Image built successfully" then
    (.test, s)
  else if s.docker_retry_count ≥ 3 then
    (.create_pr,
     { s with
       test_status := "ERROR"
       logs := s.logs ++ ["Docker build failed after 3 retries. Aborting."] })
  else
    (.fix_dockerfile, s)

/-- Router `check_retry` (lines 480-484): `PASSED` or an exhausted iteration
budget routes to `create_pr`, anything else to `analyze`. -/
def check_retry (s : AgentState) : Node :=
  if s.test_status = "PASSED" then .create_pr
  else if s.iteration ≥ s.max_iterations then .create_pr
  else .analyze

/-- One step of the workflow: execute the current node's body and follow the
graph edge (conditional edges via the routers above; `create_pr` leads to
`END`, modelled as `done`; `done` and `crashed` are sinks). -/
def stepFlow (o : Outcome) : Node × AgentState → Node × AgentState
  | (.clone, s) => (.analyze_project, clone_node o s)
  | (.analyze_project, s) =>
      match analyze_project_node s with
      | .ok s2 => (.check_dockerfile, s2)
      | .error _ => (.crashed, s)
  | (.check_dockerfile, s) =>
      let s2 := check_dockerfile_node o s
      (route_dockerfile s2, s2)
  | (.generate_dockerfile, s) => (.validate_docker, generate_dockerfile_node s)
  | (.validate_docker, s) => route_after_validation (validate_docker_node o s)
  | (.fix_dockerfile, s) => (.validate_docker, fix_dockerfile_node s)
  | (.test, s) =>
      let s2 := test_node o s
      (check_retry s2, s2)
  | (.analyze, s) => (.fix, analyze_node o s)
  | (.fix, s) => (.commit, fix_node o s)
  | (.commit, s) => (.test, (commit_node o s).1)
  | (.create_pr, s) => (.done, pr_node s)
  | (.done, s) => (.done, s)
  | (.crashed, s) => (.crashed, s)

/-- Modelled from the spec: the initial session state handed to the compiled
graph.  The caller constructing the initial state dictionary is not part of
the sources; section 3 of the specification fixes the initial counters
(`iteration` counts tests attempted so far, hence 0; `testStatus` starts
UNKNOWN; no fixes, no error, no repository path yet). -/
def initState (m : Nat) : AgentState :=
  { team_name := "team"
    repo_path := none
    branch_name := ""
    iteration := 0
    max_iterations := m
    test_status := "UNKNOWN"
    logs := []
    fixes_applied := []
    current_error := none
    language_detected := ""
    docker_exists := false
    docker_retry_count := 0
    docker_build_logs := ""
    docker_image_tag := "" }

/-- Run the workflow for `n` steps from the entry point, consuming the
outcome `o k` at step `k`.  The pair is the node about to execute next and
the session state accumulated so far. -/
def runFlow (o : Nat → Outcome) (m : Nat) : Nat → Node × AgentState
  | 0 => (.clone, initState m)
  | n + 1 => stepFlow (o n) (runFlow o m n)

/-- Number of executions of the `test` node among the first `n` steps of a
run. -/
def countTestRuns (o : Nat → Outcome) (m : Nat) : Nat → Nat
  | 0 => 0
  | n + 1 =>
      countTestRuns o m n + (if (runFlow o m n).1 = Node.test then 1 else 0)

/-!
Sandbox result extraction (`docker_manager.py`, lines 145-167 and 216-228).
The source takes `logs[logs.rfind(chr(123)):]` — the suffix starting at the
LAST opening-brace character — and feeds it to `json.loads`; a parse failure
falls through to the `ERROR` dictionary.  `json.loads` is modelled by a
validity check `json_loads_ok`: a recursive-descent consumer of one JSON
value that must use up the whole input (Python raises `Extra data`
otherwise).  Number syntax is modelled as a maximal run of numeric
characters (all inputs of interest use plain integers); object member lists
are consumed key/colon/value/comma-wise exactly as the grammar pairs them.
-/

/-- Drops leading JSON whitespace. -/
def skipWs : List Char → List Char
  | [] => []
  | c :: cs =>
      if c = ' ' || c = '\n' || c = '\t' || c = '\r' then skipWs cs
      else c :: cs

/-- Consumes the remainder of a JSON string literal (the opening quote
already consumed), honouring backslash escapes; returns the input after the
closing quote. -/
def parseStringLit : List Char → Option (List Char)
  | [] => none
  | '\\' :: rest =>
      match rest with
      | [] => none
      | _ :: cs => parseStringLit cs
  | '"' :: cs => some cs
  | _ :: cs => parseStringLit cs

/-- Characters that may occur in a JSON number token. -/
def isNumChar (c : Char) : Bool :=
  c.isDigit || c = '-' || c = '+' || c = '.' || c = 'e' || c = 'E'

/-- Consumes a maximal run of number characters. -/
def dropNum : List Char → List Char
  | [] => []
  | c :: cs => if isNumChar c then dropNum cs else c :: cs

/-- Checks that `lit` is a prefix of the input and drops it. -/
def dropLit : List Char → List Char → Option (List Char)
  | [], cs => some cs
  | _ :: _, [] => none
  | l :: ls, c :: cs => if l = c then dropLit ls cs else none

mutual

/-- Consumes one JSON value, returning the unconsumed remainder. -/
def parseVal : Nat → List Char → Option (List Char)
  | 0, _ => none
  | fuel + 1, cs =>
      match skipWs cs with
      | [] => none
      | c :: rest =>
          if c = '"' then parseStringLit rest
          else if c = '\x7b' then parseObj fuel rest
          else if c = '[' then parseArr fuel rest
          else if c = 't' then dropLit "rue".data rest
          else if c = 'f' then dropLit "alse".data rest
          else if c = 'n' then dropLit "ull".data rest
          else if isNumChar c then some (dropNum rest)
          else none

/-- Consumes the members of a JSON object after its opening brace. -/
def parseObj : Nat → List Char → Option (List Char)
  | 0, _ => none
  | fuel + 1, cs =>
      match skipWs cs with
      | '\x7d' :: rest => some rest
      | '"' :: rest =>
          match parseStringLit rest with
          | none => none
          | some afterKey =>
              match skipWs afterKey with
              | ':' :: afterColon =>
                  match parseVal fuel afterColon with
                  | none => none
                  | some afterVal =>
                      match skipWs afterVal with
                      | ',' :: next => parseObj fuel next
                      | '\x7d' :: rest2 => some rest2
                      | _ => none
              | _ => none
      | _ => none

/-- Consumes the items of a JSON array after its opening bracket. -/
def parseArr : Nat → List Char → Option (List Char)
  | 0, _ => none
  | fuel + 1, cs =>
      match skipWs cs with
      | ']' :: rest => some rest
      | cs2 =>
          match parseVal fuel cs2 with
          | none => none
          | some afterVal =>
              match skipWs afterVal with
              | ',' :: next => parseArr fuel next
              | ']' :: rest2 => some rest2
              | _ => none

end

/-- Python `json.loads` success predicate: one JSON value followed by nothing
but whitespace. -/
def json_loads_ok (s : String) : Bool :=
  match parseVal (s.length + 1) s.data with
  | some rest => (skipWs rest).isEmpty
  | none => false

/-- The suffix of the input starting at the LAST opening brace, i.e.
`logs[logs.rfind(chr(123)):]`; `none` when no brace occurs (`rfind`
returns -1 and the extraction is skipped). -/
def lastBraceSuffix : List Char → Option (List Char)
  | [] => none
  | c :: rest =>
      match lastBraceSuffix rest with
      | some r => some r
      | none => if c = '\x7b' then some (c :: rest) else none

/-- Token masking on the parse-success path
(`result["raw_logs"].replace(token, "***TOKEN***")`, guarded by
`if token:`). -/
def maskTok (token : Option String) (raw : String) : String :=
  match token with
  | none => raw
  | some t => if t = "" then raw else raw.replace t "***TOKEN***"

/-- Return value of the sandbox/local extraction, restricted to the persisted
text the claims are about: `ok` carries the stored `raw_logs` field, `err`
carries the `logs` field of the `ERROR` dictionary. -/
inductive SandboxReturn
  | ok (raw_logs : String)
  | err (logs : String)
deriving DecidableEq

/-- Result extraction of `DockerManager.run_tests_in_sandbox` (lines
145-167): take the suffix at the last opening brace; if it parses, merge the
full logs into an absent/empty `raw_logs` field and mask the token in it;
if no brace exists or parsing fails, return the `ERROR` dictionary holding
the complete logs unmasked.  The decoded `raw_logs` field of the parsed
object is supplied as `parsedRaw` (empty string for absent/empty, matching
the source's merge condition). -/
def run_tests_in_sandbox_extract (logs : String) (token : Option String)
    (parsedRaw : String) : SandboxReturn :=
  match lastBraceSuffix logs.data with
  | none => .err logs
  | some suffix =>
      if json_loads_ok (String.mk suffix) then
        let raw := if parsedRaw = "" then logs else parsedRaw
        .ok (maskTok token raw)
      else .err logs

/-- Result extraction of `DockerManager.run_tests_locally` (lines 216-228):
identical brace/parse logic, but no masking on any path. -/
def run_tests_locally_extract (logs : String) (parsedRaw : String) :
    SandboxReturn :=
  match lastBraceSuffix logs.data with
  | none => .err logs
  | some suffix =>
      if json_loads_ok (String.mk suffix) then
        .ok (if parsedRaw = "" then logs else parsedRaw)
      else .err logs

/-!
Test/run phase logic of `backend/scripts/universal_runner.py::main`
(lines 170-213).  Exit codes of the individual commands are the inputs; an
empty list models a language with no command configured for that phase
(`config.get("test", [])` / `config.get("run", [])` empty, so the Python
`for` loop never runs and `if test_cmds:` / `if run_cmds:` are false).
-/

/-- Test-phase accumulation: `final_code` keeps the LAST non-zero exit code
(lines 178-183); zero when every command passed or no command ran. -/
def phaseCode (codes : List Int) : Int :=
  codes.foldl (fun acc c => if c ≠ 0 then c else acc) 0

/-- Run-fallback accumulation (lines 200-210): an exit code of 124 (the
`timeout` command's timeout) is converted to 0 before the same
last-non-zero accumulation. -/
def runPhaseCode (codes : List Int) : Int :=
  codes.foldl
    (fun acc c =>
      let c2 := if c = 124 then 0 else c
      if c2 ≠ 0 then c2 else acc) 0

/-- The `main` phase sequencing (lines 170-213): run the test commands; if
the test phase ended non-zero or no test command exists, and run commands
exist, reset `final_code` to 0 and run the fallback phase; the final status
is `PASSED` exactly when the resulting code is 0, else `FAILED`. -/
def runnerMain (testCodes runCodes : List Int) : Int × String :=
  let final1 := phaseCode testCodes
  let final2 :=
    if final1 ≠ 0 || testCodes = [] then
      if runCodes ≠ [] then runPhaseCode runCodes else final1
    else final1
  (final2, if final2 = 0 then "PASSED" else "FAILED")

/-!
Concrete outcome streams used by the scenario claims.
-/

/-- Outcome constructor with the standard external results used by the
scenario runs. -/
def mkOutcome (cloneOk dockerExists buildOk testOk fixFile fixChanged tok commitOk : Bool) :
    Outcome :=
  { clone_ok := cloneOk
    clone_repo_path := "/ws/repo"
    clone_branch := "fix-branch"
    dockerfile_exists := dockerExists
    build := if buildOk then { status := "success", logs := "ok" }
             else { status := "error", logs := "boom" }
    test := if testOk then
              { status := "success", language := some "python", errors := [], raw_logs := "" }
            else
              { status := "failed", language := some "python",
                errors := [{ file := some "app.py", line := 3, typ := "RUNTIME",
                             description := "boom", raw_logs := "" }],
                raw_logs := "Traceback" }
    analysis := { file := some "app.py", line := 3, typ := "RUNTIME", description := "boom" }
    guess_file := none
    fix_file_exists := fixFile
    fix_changed := fixChanged
    fix_desc := "patch"
    has_token := tok
    commit_ok := commitOk }

/-- Every test run fails; each cycle identifies `app.py`, applies a fix and
commits it successfully (claim C2's scenario, and C6's success transition). -/
def oracleFix : Nat → Outcome := fun _ =>
  mkOutcome true true true false true true true true

/-- Every test run fails and no file can ever be identified (runner reports
no candidates, the analysis yields no file, no entry-point guess exists), so
both `fix_node` and `commit_node` advance the iteration counter. -/
def oracleNoFile : Nat → Outcome := fun _ =>
  { mkOutcome true true true false true true true true with
    test := { status := "failed", language := none, errors := [], raw_logs := "" }
    analysis := { file := none, line := 0, typ := "LOGIC",
                  description := "Analysis failed" } }

/-- Every image build fails (claim C4's exhaustion scenario). -/
def oracleBuildFail : Nat → Outcome := fun _ =>
  mkOutcome true true false false true true true true

/-- The image build fails twice, then succeeds on the third validation
(steps 3 and 5 fail, step 7 succeeds; claim C4's recovery scenario). -/
def oracleBuildThirdOk : Nat → Outcome := fun k =>
  mkOutcome true true (k = 7) false true true true true

/-- The clone fails (claim C7's scenario). -/
def oracleCloneFail : Nat → Outcome := fun _ =>
  mkOutcome false true true true true true true true

/-- Strengthened iteration invariant (claim C3): the counter is globally
bounded by `max_iterations + 1`, the loop is entered (`analyze`, `fix`) only
strictly below the budget, and `commit` is reached with the counter at most
the budget. -/
def InvIter : Node × AgentState → Prop := fun p =>
  p.2.iteration ≤ p.2.max_iterations + 1 ∧
  (p.1 = Node.analyze → p.2.iteration < p.2.max_iterations) ∧
  (p.1 = Node.fix → p.2.iteration < p.2.max_iterations) ∧
  (p.1 = Node.commit → p.2.iteration ≤ p.2.max_iterations)

/-- Strengthened Docker-retry invariant (claim C4): the counter is globally
at most 3 and `fix_dockerfile` is only ever entered strictly below 3. -/
def InvRetry : Node × AgentState → Prop := fun p =>
  p.2.docker_retry_count ≤ 3 ∧
  (p.1 = Node.fix_dockerfile → p.2.docker_retry_count < 3)

/-- The three fix-record statuses that actually occur in the sources:
`Applied` at append time (`fix_node`), and `Fixed Locally` / `Failed Commit`
written by the commit step. -/
def okStatus (st : String) : Prop :=
  st = "Applied" ∨ st = "Fixed Locally" ∨ st = "Failed Commit"

/-- Fix-record status invariant (claim C6): every record ever present in
`fixes_applied` has one of the three statuses the code writes. -/
def InvFix : Node × AgentState → Prop := fun p =>
  ∀ r ∈ p.2.fixes_applied, okStatus r.status


/-- The `validate_docker_node` body applied to the dictionary actually
returned by `build_image` (claim C1): the source immediately subscripts
`result["status"]`, and on Python `None` that raises `TypeError`, which
nothing catches — so the node can never return an update at all, in
particular never one recording `Image built successfully`. -/
def validate_docker_node_actual (s : AgentState) : Except String AgentState :=
  match build_image (strLower ("test-build-" ++ s.team_name ++ ":latest")) with
  | none => .error "TypeError: NoneType object is not subscriptable"
  | some result =>
      .ok (validate_docker_node
        { mkOutcome true true true true true true true true with build := result } s)

/-- The runner's JSON result line for a failed run with one extracted error
candidate: the `errors` entry is a nested object, so the line's LAST opening
brace is the nested one, not the top-level one. -/
def runnerFailLine : String :=
  "\x7b\"status\": \"FAILED\", \"language\": \"python\", \"exit_code\": 1, \"errors\": [\x7b\"file\": \"app.py\", \"line\": 3, \"message\": \"Detected Error\"\x7d], \"raw_logs\": \"collected 1 item\"\x7d"

/-- Combined sandbox output whose last line is `runnerFailLine`. -/
def sandboxLogsNested : String :=
  "pytest session starts\n" ++ runnerFailLine

/-- The runner's JSON result line for a passing run: empty `errors` list and
empty `raw_logs`, hence no nested opening brace. -/
def flatResultLine : String :=
  "\x7b\"status\": \"SUCCESS\", \"language\": \"python\", \"exit_code\": 0, \"errors\": [], \"raw_logs\": \"\"\x7d"

/-- Combined sandbox output with stray braces in earlier output and the flat
result line last. -/
def sandboxLogsStray : String :=
  "noise \x7bstray\x7d text\n" ++ flatResultLine

/-- A bearer token used by the masking claims. -/
def tokenW : String := "ghp_SECRET123"

/-- Combined output of a failed in-container clone: the token appears in the
command echo/error text and no JSON result line was ever printed. -/
def leakLogs : String :=
  "remote: Invalid username or password\nfatal: Authentication failed for https://ghp_SECRET123@github.com/acme/app.git"

/-- Local-fallback combined output whose last line is a well-formed result
whose decoded `raw_logs` field is `leakRaw`. -/
def localLogs : String :=
  "cloning\n" ++ flatResultLine

/-- Decoded `raw_logs` field of the local fallback's parsed result,
containing the token. -/
def leakRaw : String :=
  "Cloning into repo using https://ghp_SECRET123@github.com/acme/app.git\ntests failed"

/-- A fix record already processed by a successful commit. -/
def recFixedW : FixRecord :=
  { file := "app.py", bug_type := "RUNTIME", line_number := 3,
    commit_message := "RUNTIME error in app.py line 3 -> Fix: patch",
    status := "Fixed Locally" }

/-- A fix record freshly appended by `fix_node`. -/
def recAppliedW : FixRecord :=
  { file := "app.py", bug_type := "RUNTIME", line_number := 3,
    commit_message := "RUNTIME error in app.py line 3 -> Fix: patch",
    status := "Applied" }

/-- A session whose last (only) fix record was not `Applied`. -/
def sSkipW : AgentState :=
  { initState 3 with fixes_applied := [recFixedW] }

/-- A session whose last (only) fix record is `Applied`. -/
def sAppliedW : AgentState :=
  { initState 3 with fixes_applied := [recAppliedW] }

/-- An outcome in which the local `git commit` fails. -/
def oCommitFail : Outcome :=
  mkOutcome true true true false true true true false

/-- A session state holding the unavailability message produced by the
intended `build_image` body (claim C9). -/
def sUnavailW : AgentState :=
  { initState 3 with docker_build_logs := "Docker unavailable on this system." }

/-!
Helper lemmas: sink absorption and per-node field preservation.
-/

theorem stepFlow_done (o : Outcome) (s : AgentState) :
    stepFlow o (Node.done, s) = (Node.done, s) := rfl

theorem stepFlow_crashed (o : Outcome) (s : AgentState) :
    stepFlow o (Node.crashed, s) = (Node.crashed, s) := rfl

theorem runFlow_done_absorb (o : Nat → Outcome) (m n : Nat)
    (h : (runFlow o m n).1 = Node.done) :
    ∀ k, (runFlow o m (n + k)).1 = Node.done := by
  intro k
  induction k with
  | zero => exact h
  | succ k ih =>
      show (stepFlow (o (n + k)) (runFlow o m (n + k))).1 = Node.done
      rcases heq : runFlow o m (n + k) with ⟨nd, s⟩
      rw [heq] at ih
      simp only at ih
      subst ih
      rfl

theorem runFlow_crashed_absorb (o : Nat → Outcome) (m n : Nat)
    (h : (runFlow o m n).1 = Node.crashed) :
    ∀ k, (runFlow o m (n + k)).1 = Node.crashed := by
  intro k
  induction k with
  | zero => exact h
  | succ k ih =>
      show (stepFlow (o (n + k)) (runFlow o m (n + k))).1 = Node.crashed
      rcases heq : runFlow o m (n + k) with ⟨nd, s⟩
      rw [heq] at ih
      simp only at ih
      subst ih
      rfl

theorem clone_node_fields (o : Outcome) (s : AgentState) :
    (clone_node o s).iteration = s.iteration ∧
    (clone_node o s).max_iterations = s.max_iterations ∧
    (clone_node o s).fixes_applied = s.fixes_applied ∧
    (clone_node o s).docker_retry_count ≤ max s.docker_retry_count 0 := by
  simp only [clone_node]
  split <;> simp

theorem check_dockerfile_node_fields (o : Outcome) (s : AgentState) :
    (check_dockerfile_node o s).iteration = s.iteration ∧
    (check_dockerfile_node o s).max_iterations = s.max_iterations ∧
    (check_dockerfile_node o s).fixes_applied = s.fixes_applied ∧
    (check_dockerfile_node o s).docker_retry_count = s.docker_retry_count := by
  simp [check_dockerfile_node]

theorem generate_dockerfile_node_fields (s : AgentState) :
    (generate_dockerfile_node s).iteration = s.iteration ∧
    (generate_dockerfile_node s).max_iterations = s.max_iterations ∧
    (generate_dockerfile_node s).fixes_applied = s.fixes_applied ∧
    (generate_dockerfile_node s).docker_retry_count = s.docker_retry_count := by
  simp [generate_dockerfile_node]

theorem validate_docker_node_fields (o : Outcome) (s : AgentState) :
    (validate_docker_node o s).iteration = s.iteration ∧
    (validate_docker_node o s).max_iterations = s.max_iterations ∧
    (validate_docker_node o s).fixes_applied = s.fixes_applied ∧
    (validate_docker_node o s).docker_retry_count = s.docker_retry_count := by
  simp only [validate_docker_node]
  split <;> simp

theorem fix_dockerfile_node_fields (s : AgentState) :
    (fix_dockerfile_node s).iteration = s.iteration ∧
    (fix_dockerfile_node s).max_iterations = s.max_iterations ∧
    (fix_dockerfile_node s).fixes_applied = s.fixes_applied ∧
    (fix_dockerfile_node s).docker_retry_count = s.docker_retry_count + 1 := by
  simp [fix_dockerfile_node]

theorem route_after_validation_fields (s : AgentState) :
    (route_after_validation s).2.iteration = s.iteration ∧
    (route_after_validation s).2.max_iterations = s.max_iterations ∧
    (route_after_validation s).2.fixes_applied = s.fixes_applied ∧
    (route_after_validation s).2.docker_retry_count = s.docker_retry_count := by
  simp only [route_after_validation]
  split <;> [simp; skip]
  split <;> simp

theorem test_node_fields (o : Outcome) (s : AgentState) :
    (test_node o s).iteration = s.iteration ∧
    (test_node o s).max_iterations = s.max_iterations ∧
    (test_node o s).fixes_applied = s.fixes_applied ∧
    (test_node o s).docker_retry_count = s.docker_retry_count := by
  simp only [test_node]
  cases o.test.language <;> split <;> try split
  all_goals (try cases o.test.errors) <;> simp

theorem analyze_node_fields (o : Outcome) (s : AgentState) :
    (analyze_node o s).iteration = s.iteration ∧
    (analyze_node o s).max_iterations = s.max_iterations ∧
    (analyze_node o s).fixes_applied = s.fixes_applied ∧
    (analyze_node o s).docker_retry_count = s.docker_retry_count := by
  simp only [analyze_node]
  split <;> [simp; skip]
  split <;> [simp; skip]
  split <;> simp

theorem fix_node_fields (o : Outcome) (s : AgentState) :
    (s.iteration ≤ (fix_node o s).iteration ∧
      (fix_node o s).iteration ≤ s.iteration + 1) ∧
    (fix_node o s).max_iterations = s.max_iterations ∧
    (fix_node o s).docker_retry_count = s.docker_retry_count := by
  simp only [fix_node]
  split <;> [simp; skip]
  split <;> [simp; skip]
  split <;> simp

theorem commit_node_fields (o : Outcome) (s : AgentState) :
    (commit_node o s).1.iteration = s.iteration + 1 ∧
    (commit_node o s).1.max_iterations = s.max_iterations ∧
    (commit_node o s).1.docker_retry_count = s.docker_retry_count := by
  simp only [commit_node]
  cases h : s.fixes_applied.getLast? <;> [simp; (split_ifs <;> simp)]
  all_goals split <;> simp

theorem route_after_validation_fst (s : AgentState) :
    (route_after_validation s).1 = Node.test ∨
    (route_after_validation s).1 = Node.create_pr ∨
    (route_after_validation s).1 = Node.fix_dockerfile := by
  simp only [route_after_validation]
  split_ifs <;> simp

theorem route_after_validation_fixGuard (s : AgentState)
    (h : (route_after_validation s).1 = Node.fix_dockerfile) :
    s.docker_retry_count < 3 := by
  simp only [route_after_validation] at h
  split_ifs at h with h1 h2
  omega

theorem check_retry_cases (s : AgentState) :
    check_retry s = Node.create_pr ∨
    (check_retry s = Node.analyze ∧ s.iteration < s.max_iterations) := by
  simp only [check_retry]
  split_ifs with hp hi
  · exact Or.inl rfl
  · exact Or.inl rfl
  · exact Or.inr ⟨rfl, by omega⟩

theorem route_dockerfile_fst (s : AgentState) :
    route_dockerfile s = Node.validate_docker ∨
    route_dockerfile s = Node.generate_dockerfile := by
  simp only [route_dockerfile]
  split <;> simp

theorem invIter_step (o : Outcome) (p : Node × AgentState) (h : InvIter p) :
    InvIter (stepFlow o p) := by
  obtain ⟨nd, s⟩ := p
  obtain ⟨h1, h2, h3, h4⟩ := h
  dsimp only at h1 h2 h3 h4
  cases nd with
  | clone =>
      obtain ⟨hi, hm, -, -⟩ := clone_node_fields o s
      simp only [InvIter, stepFlow]
      exact ⟨by omega, by simp, by simp, by simp⟩
  | analyze_project =>
      simp only [InvIter, stepFlow]
      cases hrp : s.repo_path with
      | none =>
          simp only [analyze_project_node, hrp]
          exact ⟨h1, by simp, by simp, by simp⟩
      | some r =>
          simp only [analyze_project_node, hrp]
          exact ⟨h1, by simp, by simp, by simp⟩
  | check_dockerfile =>
      obtain ⟨hi, hm, -, -⟩ := check_dockerfile_node_fields o s
      simp only [InvIter, stepFlow]
      rcases route_dockerfile_fst (check_dockerfile_node o s) with hr | hr <;>
        rw [hr] <;> exact ⟨by omega, by simp, by simp, by simp⟩
  | generate_dockerfile =>
      obtain ⟨hi, hm, -, -⟩ := generate_dockerfile_node_fields s
      simp only [InvIter, stepFlow]
      exact ⟨by omega, by simp, by simp, by simp⟩
  | validate_docker =>
      obtain ⟨hi, hm, -, -⟩ := validate_docker_node_fields o s
      obtain ⟨hi2, hm2, -, -⟩ :=
        route_after_validation_fields (validate_docker_node o s)
      simp only [InvIter, stepFlow]
      rcases route_after_validation_fst (validate_docker_node o s) with hr | hr | hr <;>
        rw [hr] <;> exact ⟨by omega, by simp, by simp, by simp⟩
  | fix_dockerfile =>
      obtain ⟨hi, hm, -, -⟩ := fix_dockerfile_node_fields s
      simp only [InvIter, stepFlow]
      exact ⟨by omega, by simp, by simp, by simp⟩
  | test =>
      obtain ⟨hi, hm, -, -⟩ := test_node_fields o s
      simp only [InvIter, stepFlow]
      rcases check_retry_cases (test_node o s) with hr | ⟨hr, hb⟩ <;> rw [hr]
      · exact ⟨by omega, by simp, by simp, by simp⟩
      · exact ⟨by omega, fun _ => hb, by simp, by simp⟩
  | analyze =>
      obtain ⟨hi, hm, -, -⟩ := analyze_node_fields o s
      have hlt := h2 rfl
      simp only [InvIter, stepFlow]
      exact ⟨by omega, by simp, fun _ => by omega, by simp⟩
  | fix =>
      obtain ⟨⟨hi1, hi2⟩, hm, -⟩ := fix_node_fields o s
      have hlt := h3 rfl
      simp only [InvIter, stepFlow]
      exact ⟨by omega, by simp, by simp, fun _ => by omega⟩
  | commit =>
      obtain ⟨hi, hm, -⟩ := commit_node_fields o s
      have hle := h4 rfl
      simp only [InvIter, stepFlow]
      exact ⟨by omega, by simp, by simp, by simp⟩
  | create_pr =>
      simp only [InvIter, stepFlow, pr_node]
      exact ⟨h1, by simp, by simp, by simp⟩
  | done =>
      simp only [InvIter, stepFlow]
      exact ⟨h1, by simp, by simp, by simp⟩
  | crashed =>
      simp only [InvIter, stepFlow]
      exact ⟨h1, by simp, by simp, by simp⟩

theorem runFlow_invIter (o : Nat → Outcome) (m n : Nat) :
    InvIter (runFlow o m n) := by
  induction n with
  | zero =>
      exact ⟨by simp [runFlow, initState], by simp [runFlow],
             by simp [runFlow], by simp [runFlow]⟩
  | succ n ih => exact invIter_step (o n) _ ih

theorem invRetry_step (o : Outcome) (p : Node × AgentState) (h : InvRetry p) :
    InvRetry (stepFlow o p) := by
  obtain ⟨nd, s⟩ := p
  obtain ⟨h1, h2⟩ := h
  dsimp only at h1 h2
  cases nd with
  | clone =>
      obtain ⟨-, -, -, hr⟩ := clone_node_fields o s
      simp only [InvRetry, stepFlow]
      exact ⟨by omega, by simp⟩
  | analyze_project =>
      simp only [InvRetry, stepFlow]
      cases hrp : s.repo_path with
      | none =>
          simp only [analyze_project_node, hrp]
          exact ⟨h1, by simp⟩
      | some r =>
          simp only [analyze_project_node, hrp]
          exact ⟨h1, by simp⟩
  | check_dockerfile =>
      obtain ⟨-, -, -, hr⟩ := check_dockerfile_node_fields o s
      simp only [InvRetry, stepFlow]
      rcases route_dockerfile_fst (check_dockerfile_node o s) with hd | hd <;>
        rw [hd] <;> exact ⟨by omega, by simp⟩
  | generate_dockerfile =>
      obtain ⟨-, -, -, hr⟩ := generate_dockerfile_node_fields s
      simp only [InvRetry, stepFlow]
      exact ⟨by omega, by simp⟩
  | validate_docker =>
      obtain ⟨-, -, -, hr⟩ := validate_docker_node_fields o s
      obtain ⟨-, -, -, hr2⟩ :=
        route_after_validation_fields (validate_docker_node o s)
      simp only [InvRetry, stepFlow]
      refine ⟨by omega, fun hfix => ?_⟩
      have := route_after_validation_fixGuard (validate_docker_node o s) hfix
      omega
  | fix_dockerfile =>
      obtain ⟨-, -, -, hr⟩ := fix_dockerfile_node_fields s
      have hlt := h2 rfl
      simp only [InvRetry, stepFlow]
      exact ⟨by omega, by simp⟩
  | test =>
      obtain ⟨-, -, -, hr⟩ := test_node_fields o s
      simp only [InvRetry, stepFlow]
      rcases check_retry_cases (test_node o s) with hd | ⟨hd, -⟩ <;>
        rw [hd] <;> exact ⟨by omega, by simp⟩
  | analyze =>
      obtain ⟨-, -, -, hr⟩ := analyze_node_fields o s
      simp only [InvRetry, stepFlow]
      exact ⟨by omega, by simp⟩
  | fix =>
      obtain ⟨-, -, hr⟩ := fix_node_fields o s
      simp only [InvRetry, stepFlow]
      exact ⟨by omega, by simp⟩
  | commit =>
      obtain ⟨-, -, hr⟩ := commit_node_fields o s
      simp only [InvRetry, stepFlow]
      exact ⟨by omega, by simp⟩
  | create_pr =>
      simp only [InvRetry, stepFlow, pr_node]
      exact ⟨h1, by simp⟩
  | done =>
      simp only [InvRetry, stepFlow]
      exact ⟨h1, by simp⟩
  | crashed =>
      simp only [InvRetry, stepFlow]
      exact ⟨h1, by simp⟩

theorem runFlow_invRetry (o : Nat → Outcome) (m n : Nat) :
    InvRetry (runFlow o m n) := by
  induction n with
  | zero => exact ⟨by simp [runFlow, initState], by simp [runFlow]⟩
  | succ n ih => exact invRetry_step (o n) _ ih

theorem fix_node_fixes (o : Outcome) (s : AgentState) :
    (fix_node o s).fixes_applied = s.fixes_applied ∨
    ∃ r : FixRecord, r.status = "Applied" ∧
      (fix_node o s).fixes_applied = s.fixes_applied ++ [r] := by
  simp only [fix_node]
  split_ifs <;> simp

theorem setLastStatus_mem (fixes : List FixRecord) (st : String)
    (r : FixRecord) (h : r ∈ setLastStatus fixes st) :
    r ∈ fixes ∨ r.status = st := by
  simp only [setLastStatus] at h
  cases hl : fixes.getLast? with
  | none => rw [hl] at h; exact Or.inl h
  | some last =>
      rw [hl] at h
      rcases List.mem_append.mp h with h1 | h2
      · exact Or.inl ((List.dropLast_sublist fixes).subset h1)
      · rcases List.mem_singleton.mp h2 with rfl
        exact Or.inr rfl

theorem commit_node_fixes (o : Outcome) (s : AgentState) :
    (commit_node o s).1.fixes_applied = s.fixes_applied ∨
    ∃ st, (st = "Fixed Locally" ∨ st = "Failed Commit") ∧
      (commit_node o s).1.fixes_applied = setLastStatus s.fixes_applied st := by
  simp only [commit_node]
  cases hl : s.fixes_applied.getLast? with
  | none => simp
  | some last =>
      split_ifs <;> simp
      all_goals split <;> simp

theorem invFix_step (o : Outcome) (p : Node × AgentState) (h : InvFix p) :
    InvFix (stepFlow o p) := by
  obtain ⟨nd, s⟩ := p
  dsimp only [InvFix] at h
  cases nd with
  | clone =>
      obtain ⟨-, -, hf, -⟩ := clone_node_fields o s
      intro r hr
      dsimp only [stepFlow] at hr
      rw [hf] at hr
      exact h r hr
  | analyze_project =>
      intro r hr
      dsimp only [stepFlow] at hr
      rcases hrp : s.repo_path with - | rp <;> rw [analyze_project_node, hrp] at hr <;>
        exact h r hr
  | check_dockerfile =>
      obtain ⟨-, -, hf, -⟩ := check_dockerfile_node_fields o s
      intro r hr
      dsimp only [stepFlow] at hr
      rw [hf] at hr
      exact h r hr
  | generate_dockerfile =>
      obtain ⟨-, -, hf, -⟩ := generate_dockerfile_node_fields s
      intro r hr
      dsimp only [stepFlow] at hr
      rw [hf] at hr
      exact h r hr
  | validate_docker =>
      obtain ⟨-, -, hf, -⟩ := validate_docker_node_fields o s
      obtain ⟨-, -, hf2, -⟩ :=
        route_after_validation_fields (validate_docker_node o s)
      intro r hr
      dsimp only [stepFlow] at hr
      rw [hf2, hf] at hr
      exact h r hr
  | fix_dockerfile =>
      obtain ⟨-, -, hf, -⟩ := fix_dockerfile_node_fields s
      intro r hr
      dsimp only [stepFlow] at hr
      rw [hf] at hr
      exact h r hr
  | test =>
      obtain ⟨-, -, hf, -⟩ := test_node_fields o s
      intro r hr
      dsimp only [stepFlow] at hr
      rw [hf] at hr
      exact h r hr
  | analyze =>
      obtain ⟨-, -, hf, -⟩ := analyze_node_fields o s
      intro r hr
      dsimp only [stepFlow] at hr
      rw [hf] at hr
      exact h r hr
  | fix =>
      intro r hr
      dsimp only [stepFlow] at hr
      rcases fix_node_fixes o s with hc | ⟨r2, hst, hc⟩ <;> rw [hc] at hr
      · exact h r hr
      · rcases List.mem_append.mp hr with h1 | h2
        · exact h r h1
        · rcases List.mem_singleton.mp h2 with rfl
          exact Or.inl hst
  | commit =>
      intro r hr
      dsimp only [stepFlow] at hr
      rcases commit_node_fixes o s with hc | ⟨st, hst, hc⟩ <;> rw [hc] at hr
      · exact h r hr
      · rcases setLastStatus_mem s.fixes_applied st r hr with h1 | h1
        · exact h r h1
        · rcases hst with rfl | rfl
          · exact Or.inr (Or.inl h1)
          · exact Or.inr (Or.inr h1)
  | create_pr =>
      intro r hr
      dsimp only [stepFlow, pr_node] at hr
      exact h r hr
  | done =>
      intro r hr
      exact h r hr
  | crashed =>
      intro r hr
      exact h r hr

theorem runFlow_invFix (o : Nat → Outcome) (m n : Nat) :
    InvFix (runFlow o m n) := by
  induction n with
  | zero => intro r hr; simp [runFlow, initState] at hr
  | succ n ih => exact invFix_step (o n) _ ih

/-!
Claim theorems.
-/

set_option maxRecDepth 8000 in
/-- C1: for every tag, `DockerTestRunner.build_image` can never return a
result whose status is `success`.  The per-line delimiter counts show the
string literal opened at line 35 (count odd after line 35 and after every
line up to 82) is not closed until line 83 (count even again), and the
file's total count is odd, so the module text ends inside an unterminated
triple-quoted string and is syntactically invalid; the executable body of
`build_image` is string content, so `build_image` yields no result
dictionary at all, `validate_docker_node`'s subscript of that result raises
instead of recording `Image built successfully`, and
`route_after_validation` routes to the TEST node only when
`docker_build_logs` contains that literal. -/
theorem C1_build_image_never_success :
    (tqPre 34 % 2 = 0 ∧ tqPre 35 % 2 = 1 ∧
      ((List.range' 35 48).all (fun k => tqPre k % 2 = 1)) = true ∧
      tqPre 83 % 2 = 0 ∧ tqPre tqCounts.length % 2 = 1) ∧
    (∀ tag : String, build_image tag = none) ∧
    (∀ s : AgentState, validate_docker_node_actual s =
      Except.error "TypeError: NoneType object is not subscriptable") ∧
    (∀ s : AgentState,
      (route_after_validation s).1 ≠ Node.test ∨
      strContains s.docker_build_logs "Image built successfully" = true) := by
  refine ⟨by decide, fun tag => rfl, fun s => rfl, fun s => ?_⟩
  cases hb : strContains s.docker_build_logs "Image built successfully" with
  | false =>
      left
      simp only [route_after_validation, hb, Bool.false_eq_true, if_false]
      split <;> simp
  | true => exact Or.inr rfl

/-- C4: in every reachable state of the Dockerfile-validation loop the
retry counter never exceeds 3; with every build failing, the run reaches
`create_pr` with `test_status = "ERROR"` and counter 3, and no node of the
test-fix loop (`test`, `analyze`, `fix`, `commit`) is ever entered; with
two failures followed by a success, the run enters `test` with the counter
at 2. -/
theorem C4_docker_retry_bounded :
    (∀ (o : Nat → Outcome) (m n : Nat),
        (runFlow o m n).2.docker_retry_count ≤ 3) ∧
    ((runFlow oracleBuildFail 3 10).1 = Node.create_pr ∧
      (runFlow oracleBuildFail 3 10).2.test_status = "ERROR" ∧
      (runFlow oracleBuildFail 3 10).2.docker_retry_count = 3 ∧
      (∀ k, (runFlow oracleBuildFail 3 k).1 ≠ Node.test ∧
            (runFlow oracleBuildFail 3 k).1 ≠ Node.analyze ∧
            (runFlow oracleBuildFail 3 k).1 ≠ Node.fix ∧
            (runFlow oracleBuildFail 3 k).1 ≠ Node.commit)) ∧
    ((runFlow oracleBuildThirdOk 3 8).1 = Node.test ∧
      (runFlow oracleBuildThirdOk 3 8).2.docker_retry_count = 2) := by
  refine ⟨fun o m n => (runFlow_invRetry o m n).1,
          ⟨by decide, by decide, by decide, ?_⟩, by decide, by decide⟩
  intro k
  rcases Nat.lt_or_ge k 11 with hk | hk
  · interval_cases k <;> exact ⟨by decide, by decide, by decide, by decide⟩
  · obtain ⟨j, rfl⟩ := Nat.exists_eq_add_of_le hk
    have hd := runFlow_done_absorb oracleBuildFail 3 11 (by decide) j
    rw [hd]
    exact ⟨by simp, by simp, by simp, by simp⟩

/-- C10: in the universal test runner, the run-fallback phase is consulted
exactly when the test phase ended non-zero or no test command exists: a
passing test phase fixes the result at `(0, PASSED)` regardless of the run
commands; with no run command the final code stays the test phase's last
non-zero code; within the fallback an exit code of 124 counts as success;
and the final status is `PASSED` if and only if the last considered phase
exited 0, so a failing test phase followed by a succeeding or timed-out run
phase yields `PASSED`. -/
theorem C10_run_fallback_semantics :
    (∀ testCodes : List Int, phaseCode testCodes = 0 → testCodes ≠ [] →
        ∀ runCodes : List Int, runnerMain testCodes runCodes = (0, "PASSED")) ∧
    (∀ testCodes : List Int, testCodes ≠ [] →
        runnerMain testCodes [] = (phaseCode testCodes,
          if phaseCode testCodes = 0 then "PASSED" else "FAILED")) ∧
    (∀ testCodes runCodes : List Int, phaseCode testCodes ≠ 0 → runCodes ≠ [] →
        runnerMain testCodes runCodes = (runPhaseCode runCodes,
          if runPhaseCode runCodes = 0 then "PASSED" else "FAILED")) ∧
    (∀ runCodes : List Int, (∀ c ∈ runCodes, c = 124 ∨ c = 0) →
        runPhaseCode runCodes = 0) ∧
    (∀ testCodes runCodes : List Int,
        (runnerMain testCodes runCodes).2 = "PASSED" ↔
        (runnerMain testCodes runCodes).1 = 0) := by
  refine ⟨?_, ?_, ?_, ?_, ?_⟩
  · intro tc h0 hne rc
    simp [runnerMain, h0, hne]
  · intro tc hne
    simp only [runnerMain]
    split_ifs <;> simp_all
  · intro tc rc hf hne
    simp [runnerMain, hf, hne]
  · intro rc h
    have key : ∀ (l : List Int), (∀ c ∈ l, c = 124 ∨ c = 0) → ∀ acc : Int,
        l.foldl (fun acc c =>
          let c2 := if c = 124 then 0 else c
          if c2 ≠ 0 then c2 else acc) acc = acc := by
      intro l
      induction l with
      | nil => intro _ acc; rfl
      | cons c cs ih =>
          intro hl acc
          have hc := hl c (List.mem_cons_self c cs)
          have hrest := fun x hx => hl x (List.mem_cons_of_mem _ hx)
          rcases hc with rfl | rfl <;> rw [List.foldl_cons] <;> exact ih hrest acc
    exact key rc h 0
  · intro tc rc
    simp only [runnerMain]
    split_ifs <;> simp_all

/-- C2 counterexample: with `max_iterations = 3` and every test failing
(each cycle applying and committing a fix), the run executes the TEST node
4 times before reaching `create_pr`, not 3 as claimed. -/
theorem C2_exactly_three_counterexample :
    countTestRuns oracleFix 3 17 = 4 ∧
    (runFlow oracleFix 3 17).1 = Node.create_pr ∧
    (runFlow oracleFix 3 18).1 = Node.done ∧
    ¬ countTestRuns oracleFix 3 17 = 3 := by
  refine ⟨by decide, by decide, by decide, by decide⟩

/-- C2 (amended): with `maxIterations = 3` and every test run failing, each
cycle identifying and committing a fix (so `iteration` advances once per
COMMIT), the orchestrator performs exactly 4 executions of the TEST step —
the `iteration >= maxIterations` check runs only after a test — and then
routes to CREATE_PR with `testStatus != PASSED` and `iteration = 3`; no
further test execution ever happens. -/
theorem C2_four_test_executions :
    (runFlow oracleFix 3 17).1 = Node.create_pr ∧
    (runFlow oracleFix 3 17).2.test_status = "FAILED" ∧
    (runFlow oracleFix 3 17).2.iteration = 3 ∧
    countTestRuns oracleFix 3 17 = 4 ∧
    (∀ k, countTestRuns oracleFix 3 (17 + k) = 4) := by
  have hnt : ∀ k, (runFlow oracleFix 3 (17 + k)).1 ≠ Node.test := by
    intro k
    cases k with
    | zero => decide
    | succ k2 =>
        have hd := runFlow_done_absorb oracleFix 3 18 (by decide) k2
        rw [show 17 + (k2 + 1) = 18 + k2 from by omega, hd]
        simp
  refine ⟨by decide, by decide, by decide, by decide, ?_⟩
  intro k
  induction k with
  | zero => decide
  | succ k ih =>
      have hstep : countTestRuns oracleFix 3 (17 + (k + 1)) =
          countTestRuns oracleFix 3 (17 + k) +
            (if (runFlow oracleFix 3 (17 + k)).1 = Node.test then 1 else 0) := by
        rw [show 17 + (k + 1) = (17 + k) + 1 from by omega]
        simp only [countTestRuns]
      rw [hstep, if_neg (hnt k), ih]

/-- C3 counterexample: with `max_iterations = 1`, a failing test whose
analysis identifies no file makes both `fix_node` and `commit_node`
increment the counter, so the session re-enters the TEST node with
`iteration = 2 > 1` before any escalation to `create_pr`. -/
theorem C3_iteration_exceeds_counterexample :
    (runFlow oracleNoFile 1 8).1 = Node.test ∧
    (runFlow oracleNoFile 1 8).2.max_iterations = 1 ∧
    (runFlow oracleNoFile 1 8).2.iteration = 2 ∧
    ¬ ((runFlow oracleNoFile 1 8).2.iteration ≤
        (runFlow oracleNoFile 1 8).2.max_iterations) := by
  refine ⟨by decide, by decide, by decide, by decide⟩

/-- C3 (amended): in every reachable state of the orchestrator,
`iteration ≤ maxIterations + 1` — one cycle can increment the counter twice
(`fix_node`'s early-skip paths and `commit_node` both increment), but the
loop is only entered (`analyze`) while `iteration < maxIterations`, so the
counter can overshoot the budget by at most one before escalation. -/
theorem C3_iteration_bound :
    ∀ (o : Nat → Outcome) (m n : Nat),
      (runFlow o m n).2.iteration ≤ (runFlow o m n).2.max_iterations + 1 ∧
      ((runFlow o m n).1 = Node.analyze →
        (runFlow o m n).2.iteration < (runFlow o m n).2.max_iterations) := by
  intro o m n
  exact ⟨(runFlow_invIter o m n).1, (runFlow_invIter o m n).2.1⟩

/-- Witness for C3's amended bound at a concrete reachable `analyze` state. -/
theorem C3_iteration_bound_witness :
    (runFlow oracleNoFile 1 5).2.iteration ≤
      (runFlow oracleNoFile 1 5).2.max_iterations + 1 ∧
    (runFlow oracleNoFile 1 5).2.iteration <
      (runFlow oracleNoFile 1 5).2.max_iterations := by
  exact ⟨(C3_iteration_bound oracleNoFile 1 5).1,
         (C3_iteration_bound oracleNoFile 1 5).2 (by decide)⟩

/-- C6 counterexample: a record appended as `Applied` is rewritten to
`Fixed Locally` by a SUCCESSFUL commit — a status outside the claimed set
`Applied / FailedCommit / Skipped` and a transition other than the claimed
single `Applied → FailedCommit`. -/
theorem C6_fixed_locally_counterexample :
    (runFlow oracleFix 3 7).2.fixes_applied.map (fun r => r.status) =
      ["Applied"] ∧
    (runFlow oracleFix 3 8).2.fixes_applied.map (fun r => r.status) =
      ["Fixed Locally"] ∧
    ¬ ("Fixed Locally" = "Applied" ∨ "Fixed Locally" = "FailedCommit" ∨
        "Fixed Locally" = "Skipped") := by
  refine ⟨by decide, by decide, by decide⟩

/-- C6 (amended): every fix record ever present has status `Applied`,
`Fixed Locally` or `Failed Commit`; the commit step makes no
version-control call and leaves the records untouched (only advancing the
iteration counter) whenever there is no record or the most recent record's
status is not `Applied`; and a failed local commit rewrites only the last
record's status to `Failed Commit`, advances the counter, and the graph
still proceeds from COMMIT to TEST. -/
theorem C6_fix_record_lifecycle :
    (∀ (o : Nat → Outcome) (m n : Nat),
        ∀ r ∈ (runFlow o m n).2.fixes_applied,
          r.status = "Applied" ∨ r.status = "Fixed Locally" ∨
          r.status = "Failed Commit") ∧
    (∀ (o : Outcome) (s : AgentState),
        (∀ last, s.fixes_applied.getLast? = some last →
            last.status ≠ "Applied") →
        (commit_node o s).2 = false ∧
        (commit_node o s).1.fixes_applied = s.fixes_applied ∧
        (commit_node o s).1.iteration = s.iteration + 1) ∧
    (∀ (o : Outcome) (s : AgentState) (last : FixRecord),
        s.fixes_applied.getLast? = some last → last.status = "Applied" →
        o.has_token = true → o.commit_ok = false →
        (commit_node o s).1.fixes_applied =
          setLastStatus s.fixes_applied "Failed Commit" ∧
        (commit_node o s).1.iteration = s.iteration + 1 ∧
        (stepFlow o (Node.commit, s)).1 = Node.test) := by
  refine ⟨fun o m n => runFlow_invFix o m n, ?_, ?_⟩
  · intro o s hno
    cases hl : s.fixes_applied.getLast? with
    | none => simp [commit_node, hl]
    | some last =>
        have hne := hno last hl
        simp [commit_node, hl, hne]
  · intro o s last hl hap ht hc
    refine ⟨?_, ?_, rfl⟩ <;> simp [commit_node, hl, hap, ht, hc]

/-- Witness for C6's amended lifecycle: a concrete reachable record's
status is in the allowed set, a concrete skip state makes no git call, and
a concrete failed commit marks the last record `Failed Commit`. -/
theorem C6_fix_record_lifecycle_witness :
    (recFixedW.status = "Applied" ∨ recFixedW.status = "Fixed Locally" ∨
      recFixedW.status = "Failed Commit") ∧
    (commit_node oCommitFail sSkipW).2 = false ∧
    (commit_node oCommitFail sAppliedW).1.fixes_applied =
      setLastStatus sAppliedW.fixes_applied "Failed Commit" := by
  refine ⟨?_, ?_, ?_⟩
  · exact C6_fix_record_lifecycle.1 oracleFix 3 8 recFixedW (by decide)
  · refine (C6_fix_record_lifecycle.2.1 oCommitFail sSkipW ?_).1
    intro last hl
    have hlast : last = recFixedW := by
      have : sSkipW.fixes_applied.getLast? = some recFixedW := by decide
      rw [this] at hl
      exact (Option.some.injEq _ _).mp hl.symm ▸ rfl
    subst hlast
    decide
  · exact (C6_fix_record_lifecycle.2.2 oCommitFail sAppliedW recAppliedW
      (by decide) rfl rfl rfl).1

/-- C7 counterexample: after a failed clone the session status is ERROR and
the graph does route forward, but the very next node reads
`state["repo_path"]` unguarded, raises, and the run crashes without ever
reaching pull-request creation. -/
theorem C7_clone_failure_counterexample :
    (runFlow oracleCloneFail 3 1).2.test_status = "ERROR" ∧
    (runFlow oracleCloneFail 3 1).1 = Node.analyze_project ∧
    (runFlow oracleCloneFail 3 1).2.repo_path = none ∧
    analyze_project_node (runFlow oracleCloneFail 3 1).2 =
      Except.error "KeyError: repo_path" ∧
    (runFlow oracleCloneFail 3 2).1 = Node.crashed ∧
    (∀ k, (runFlow oracleCloneFail 3 k).1 ≠ Node.create_pr) := by
  refine ⟨by decide, by decide, by decide, rfl, by decide, ?_⟩
  intro k
  rcases Nat.lt_or_ge k 2 with hk | hk
  · interval_cases k <;> decide
  · obtain ⟨j, rfl⟩ := Nat.exists_eq_add_of_le hk
    rw [runFlow_crashed_absorb oracleCloneFail 3 2 (by decide) j]
    simp

/-- C7 (amended): a failed clone sets `testStatus = ERROR`, leaves no
repository path, and the graph still routes forward to the next node; but
that node's unguarded read of the repository path raises (`KeyError`) when
the clone produced none, so there is no defined behaviour carrying the
session to pull-request creation. -/
theorem C7_clone_failure_behavior :
    (∀ (o : Outcome) (s : AgentState), o.clone_ok = false →
        (clone_node o s).test_status = "ERROR" ∧
        (clone_node o s).repo_path = s.repo_path ∧
        (stepFlow o (Node.clone, s)).1 = Node.analyze_project) ∧
    (∀ s : AgentState, s.repo_path = none →
        analyze_project_node s = Except.error "KeyError: repo_path") ∧
    (∀ (o : Outcome) (s : AgentState), s.repo_path = none →
        stepFlow o (Node.analyze_project, s) = (Node.crashed, s)) := by
  refine ⟨?_, ?_, ?_⟩
  · intro o s h
    refine ⟨?_, ?_, rfl⟩ <;> simp [clone_node, h]
  · intro s h
    simp [analyze_project_node, h]
  · intro o s h
    simp [stepFlow, analyze_project_node, h]

/-- Witness for C7's amended behaviour at the initial state with a failing
clone. -/
theorem C7_clone_failure_behavior_witness :
    (clone_node (mkOutcome false true true true true true true true)
        (initState 3)).test_status = "ERROR" ∧
    analyze_project_node (initState 3) = Except.error "KeyError: repo_path" := by
  exact ⟨(C7_clone_failure_behavior.1 _ _ rfl).1,
         C7_clone_failure_behavior.2.1 _ rfl⟩

/-- C9 counterexample: the unavailability short-circuit written in the
source (the intended `build_image` body) returns status `error` — not a
"skipped" success — and the VALIDATE router sends its message into the
FIX_DOCKERFILE retry loop, not to TEST. -/
theorem C9_no_skip_marker_counterexample :
    build_image_text false DockerBuildOutcome.built =
      { status := "error", logs := "Docker unavailable on this system." } ∧
    ¬ (build_image_text false DockerBuildOutcome.built).status = "success" ∧
    (route_after_validation sUnavailW).1 = Node.fix_dockerfile ∧
    ¬ (route_after_validation sUnavailW).1 = Node.test := by
  refine ⟨rfl, by decide, by decide, by decide⟩

/-- C9 (amended): when the container runtime is unavailable the intended
`build_image` body short-circuits with status `error` and logs
`Docker unavailable on this system.` for every build outcome; VALIDATE
stores those failure logs verbatim; and the router treats them as a build
failure — `fix_dockerfile` below the retry cap, `create_pr` at the cap —
never as a success routed to TEST. -/
theorem C9_unavailability_is_failure :
    (∀ outc : DockerBuildOutcome,
        build_image_text false outc =
          { status := "error", logs := "Docker unavailable on this system." }) ∧
    (∀ (o : Outcome) (s : AgentState), o.build.status ≠ "success" →
        (validate_docker_node o s).docker_build_logs = o.build.logs) ∧
    (∀ s : AgentState,
        s.docker_build_logs = "Docker unavailable on this system." →
        (route_after_validation s).1 =
          (if s.docker_retry_count ≥ 3 then Node.create_pr
           else Node.fix_dockerfile) ∧
        (route_after_validation s).1 ≠ Node.test) := by
  refine ⟨fun outc => rfl, ?_, ?_⟩
  · intro o s h
    simp [validate_docker_node, h]
  · intro s h
    have hc : strContains s.docker_build_logs "Image built successfully" = false := by
      rw [h]; decide
    constructor
    · simp only [route_after_validation, hc, Bool.false_eq_true, if_false]
      split_ifs <;> rfl
    · simp only [route_after_validation, hc, Bool.false_eq_true, if_false]
      split_ifs <;> simp

/-- Witness for C9's amended behaviour: a concrete failed build's logs are
stored, and the concrete unavailability state routes away from TEST. -/
theorem C9_unavailability_is_failure_witness :
    (validate_docker_node (mkOutcome true true false false true true true true)
        (initState 3)).docker_build_logs = "boom" ∧
    (route_after_validation sUnavailW).1 =
      (if sUnavailW.docker_retry_count ≥ 3 then Node.create_pr
       else Node.fix_dockerfile) ∧
    (route_after_validation sUnavailW).1 ≠ Node.test := by
  refine ⟨?_, (C9_unavailability_is_failure.2.2 sUnavailW rfl).1,
          (C9_unavailability_is_failure.2.2 sUnavailW rfl).2⟩
  have h := C9_unavailability_is_failure.2.1
    (mkOutcome true true false false true true true true) (initState 3)
    (by decide)
  rw [h]
  decide

set_option maxRecDepth 20000 in
/-- C5 (code bug evidence): the combined sandbox output ends with the
runner's complete JSON result line, which is itself valid JSON; but because
that line's `errors` entry is a nested object, `rfind` picks the nested
opening brace, `json.loads` fails on the trailing data, and the extraction
returns the `ERROR` dictionary instead of the last top-level object.  The
extraction only succeeds when the final object happens to contain no nested
brace (stray braces in earlier output alone are harmless). -/
theorem C5_extraction_rfind_bug :
    sandboxLogsNested = "pytest session starts\n" ++ runnerFailLine ∧
    json_loads_ok runnerFailLine = true ∧
    run_tests_in_sandbox_extract sandboxLogsNested none "" =
      SandboxReturn.err sandboxLogsNested ∧
    run_tests_in_sandbox_extract sandboxLogsStray none "" =
      SandboxReturn.ok sandboxLogsStray := by
  refine ⟨rfl, by decide, by decide, by decide⟩

set_option maxRecDepth 20000 in
/-- C8 (code bug evidence): the token is masked only on the sandbox
parse-success path.  On the parse-failure path the `ERROR` dictionary
persists the combined logs with the token in clear; the local-subprocess
fallback performs no masking at all even on its success path; only the
sandbox success path applies the `replace` masking. -/
theorem C8_token_leaks_unmasked :
    strContains leakLogs tokenW = true ∧
    run_tests_in_sandbox_extract leakLogs (some tokenW) "" =
      SandboxReturn.err leakLogs ∧
    strContains leakRaw tokenW = true ∧
    run_tests_locally_extract localLogs leakRaw = SandboxReturn.ok leakRaw ∧
    (∀ raw : String, maskTok (some tokenW) raw =
      raw.replace tokenW "***TOKEN***") := by
  refine ⟨by decide, by decide, by decide, by decide, fun raw => ?_⟩
  simp only [maskTok]
  rw [if_neg (by decide)]

/-- Witness for C10's phase semantics at concrete exit codes: a passing
test phase ignores the run commands, a failing test phase with no run
command keeps its failure code, and a failing test phase followed by a
timed-out run command yields `PASSED`. -/
theorem C10_run_fallback_semantics_witness :
    runnerMain [0] [5] = (0, "PASSED") ∧
    runnerMain [2] [] = (phaseCode [2], if phaseCode [2] = 0 then "PASSED" else "FAILED") ∧
    runnerMain [1] [124] = (runPhaseCode [124],
      if runPhaseCode [124] = 0 then "PASSED" else "FAILED") ∧
    runPhaseCode [124] = 0 := by
  refine ⟨C10_run_fallback_semantics.1 [0] (by decide) (by decide) [5],
          C10_run_fallback_semantics.2.1 [2] (by decide),
          C10_run_fallback_semantics.2.2.1 [1] [124] (by decide) (by decide),
          C10_run_fallback_semantics.2.2.2.1 [124] (by decide)⟩

/-- Witness for C1 at a concrete tag and state. -/
theorem C1_build_image_never_success_witness :
    build_image "test-build-team:latest" = none ∧
    validate_docker_node_actual (initState 3) =
      Except.error "TypeError: NoneType object is not subscriptable" ∧
    ((route_after_validation (initState 3)).1 ≠ Node.test ∨
      strContains (initState 3).docker_build_logs "Image built successfully" = true) := by
  exact ⟨C1_build_image_never_success.2.1 "test-build-team:latest",
         C1_build_image_never_success.2.2.1 (initState 3),
         C1_build_image_never_success.2.2.2 (initState 3)⟩

/-- Witness for C4 at concrete run positions. -/
theorem C4_docker_retry_bounded_witness :
    (runFlow oracleBuildFail 3 9).2.docker_retry_count ≤ 3 ∧
    (runFlow oracleBuildFail 3 4).1 ≠ Node.test := by
  exact ⟨C4_docker_retry_bounded.1 oracleBuildFail 3 9,
         (C4_docker_retry_bounded.2.1.2.2.2 4).1⟩
